import Mathlib

/-!
Verification development for the BatteryMonitor repository.

The repository ships two header files, `src/BatteryMonitor/config.h` and
`src/BatteryMonitor/credentials.h`, holding only compile-time constants.
The constants below are transcribed from `config.h`.  The control logic of
the monitor (Sampler, Converter, Evaluator, Cycle Controller, Notifier) is
not part of the supplied sources; where a definition embeds that missing
logic it is modelled from the specification and its doc comment says so.
Voltages are modelled as rationals.
-/

namespace BatteryMonitor

/-- Constant `BATTERY_A_WARN_LOW` from `config.h` line 6. -/
def BATTERY_A_WARN_LOW : ℚ := 11.5

/-- Constant `BATTERY_B_WARN_LOW` from `config.h` line 7. -/
def BATTERY_B_WARN_LOW : ℚ := 11.5

/-- Constant `BATTERY_A_ALARM_LOW` from `config.h` line 8. -/
def BATTERY_A_ALARM_LOW : ℚ := 10.5

/-- Constant `BATTERY_B_ALARM_LOW` from `config.h` line 9. -/
def BATTERY_B_ALARM_LOW : ℚ := 10.5

/-- Constant `SUBJECT_BATTERY_MONITOR_WORKING` from `config.h` line 10. -/
def SUBJECT_BATTERY_MONITOR_WORKING : String := "OK: Batteries Charged"

/-- Constant `SUBJECT_BATTERY_A_ALARM_LOW` from `config.h` line 11. -/
def SUBJECT_BATTERY_A_ALARM_LOW : String := "Alarm: Battery A (Engine) "

/-- Constant `SUBJECT_BATTERY_B_ALARM_LOW` from `config.h` line 12. -/
def SUBJECT_BATTERY_B_ALARM_LOW : String := "Alarm: Battery B (DeepCycle) "

/-- Constant `SUBJECT_BATTERY_A_WARN_LOW` from `config.h` line 13. -/
def SUBJECT_BATTERY_A_WARN_LOW : String := "Warn: Battery A (Engine) "

/-- Constant `SUBJECT_BATTERY_B_WARN_LOW` from `config.h` line 14. -/
def SUBJECT_BATTERY_B_WARN_LOW : String := "Warn: Battery B (DeepCycle) "

/-- Constant `TIME_TO_SLEEP` from `config.h` line 17 (seconds of deep sleep). -/
def TIME_TO_SLEEP : ℕ := 1800

/-- Constant `IM_OK_INTERVAL` from `config.h` line 18: number of wakeups
before an "OK: Batteries Charged" message is sent. -/
def IM_OK_INTERVAL : ℕ := 1

/-- Constant `ADC_PIN_A` from `config.h` line 21. -/
def ADC_PIN_A : ℕ := 34

/-- Constant `ADC_PIN_B` from `config.h` line 22. -/
def ADC_PIN_B : ℕ := 35

/-- Constant `ADC_A_MULTIPLIER` from `config.h` line 23. -/
def ADC_A_MULTIPLIER : ℚ := 189

/-- Constant `ADC_B_MULTIPLIER` from `config.h` line 24. -/
def ADC_B_MULTIPLIER : ℚ := 179

/-- Constant `NUM_READINGS` from `config.h` line 25: number of voltage
samples used to compute the average. -/
def NUM_READINGS : ℕ := 25

/-- Constant `DELAY_BETWEEN_READINGS` from `config.h` line 26 (milliseconds). -/
def DELAY_BETWEEN_READINGS : ℕ := 50

/-- Constant `BATTERY_B_MONITORED` from `config.h` line 27. -/
def BATTERY_B_MONITORED : Bool := true

/-- Constant `NUM_WIFI_ATTEMPTS` from `config.h` line 30. -/
def NUM_WIFI_ATTEMPTS : ℕ := 25

/-- Constant `WIFI_RETRY_INTERVAL` from `config.h` line 31 (milliseconds). -/
def WIFI_RETRY_INTERVAL : ℕ := 100

/-- Constant `BUF_SIZE` from `config.h` line 32: size of the utility string
buffers. -/
def BUF_SIZE : ℕ := 128

/-- Constant `SEND_MAIL` from `config.h` line 35. -/
def SEND_MAIL : Bool := true

/-- Severity of a battery channel reading (spec data model §3):
NORMAL, WARN or ALARM. -/
inductive Severity
  | NORMAL
  | WARN
  | ALARM
deriving DecidableEq, Repr

/-- Identifier of a monitored battery channel. -/
inductive ChannelId
  | A
  | B
deriving DecidableEq, Repr

/-- Immutable per-channel configuration (spec data model §3). -/
structure ChannelConfig where
  id : ChannelId
  adcPin : ℕ
  multiplier : ℚ
  warnLowVolts : ℚ
  alarmLowVolts : ℚ

/-- Shipped configuration of channel A, assembled from the `config.h`
constants. -/
def channelA : ChannelConfig :=
  ⟨ChannelId.A, ADC_PIN_A, ADC_A_MULTIPLIER, BATTERY_A_WARN_LOW, BATTERY_A_ALARM_LOW⟩

/-- Shipped configuration of channel B, assembled from the `config.h`
constants. -/
def channelB : ChannelConfig :=
  ⟨ChannelId.B, ADC_PIN_B, ADC_B_MULTIPLIER, BATTERY_B_WARN_LOW, BATTERY_B_ALARM_LOW⟩

/-- Division that signals an error instead of defaulting on a zero divisor;
used to make the division-by-zero guards of the core explicit. -/
def checkedDiv (a b : ℚ) : Option ℚ :=
  if b = 0 then none else some (a / b)

/-- Modelled from the spec: the Sampler's reduction (§4.1, absent from the
supplied sources) takes the arithmetic mean of the `NUM_READINGS` raw
samples, i.e. divides their sum by `NUM_READINGS`. -/
def reduceMean (s : List ℚ) : Option ℚ :=
  checkedDiv s.sum (NUM_READINGS : ℚ)

/-- Modelled from the spec: the Converter (§4.2, absent from the supplied
sources) maps a raw mean to volts by dividing by the per-channel
multiplier. -/
def toVolts (rawMean mult : ℚ) : Option ℚ :=
  checkedDiv rawMean mult

/-- Modelled from the spec: the Evaluator (§4.3, absent from the supplied
sources) classifies a voltage against the channel's thresholds:
ALARM at or below `alarmLowVolts`, WARN at or below `warnLowVolts`,
NORMAL above `warnLowVolts`. -/
def classify (volts : ℚ) (cfg : ChannelConfig) : Severity :=
  if volts ≤ cfg.alarmLowVolts then Severity.ALARM
  else if volts ≤ cfg.warnLowVolts then Severity.WARN
  else Severity.NORMAL

/-- Modelled from the spec: one channel's evaluation for a cycle (§4.4,
absent from the supplied sources).  `none` for the raw sample list is an
`AcquisitionError`; a failed channel stays unknown (`none`) instead of
being classified. -/
def evalChannel (raw : Option (List ℚ)) (cfg : ChannelConfig) : Option Severity :=
  match raw with
  | none => none
  | some rs =>
    match reduceMean rs with
    | none => none
    | some m =>
      match toVolts m cfg.multiplier with
      | none => none
      | some v => some (classify v cfg)

/-- Per-channel state persisted across deep-sleep cycles (spec data model
§3): last severity and the OK-suppression wake counter. -/
structure ChannelState where
  lastSeverity : Severity
  wakesSinceOkSent : ℕ
deriving DecidableEq, Repr

/-- Notification event built by the controller and consumed by the
Notifier (spec data model §3).  `channel` is `none` for the aggregate
all-NORMAL OK notification. -/
structure NotificationEvent where
  subjectTemplate : String
  channel : Option ChannelId
  severity : Severity
deriving DecidableEq, Repr

/-- Modelled from the spec: the Notifier builds the subject from the
per-severity, per-channel template (§4.5, absent from the supplied
sources); in the shipped configuration each `SUBJECT_*` template already
carries its channel label text. -/
def subjectFor (s : Severity) (ch : ChannelId) : String :=
  match s, ch with
  | Severity.ALARM, ChannelId.A => SUBJECT_BATTERY_A_ALARM_LOW
  | Severity.ALARM, ChannelId.B => SUBJECT_BATTERY_B_ALARM_LOW
  | Severity.WARN, ChannelId.A => SUBJECT_BATTERY_A_WARN_LOW
  | Severity.WARN, ChannelId.B => SUBJECT_BATTERY_B_WARN_LOW
  | Severity.NORMAL, _ => SUBJECT_BATTERY_MONITOR_WORKING

/-- Notification event for one channel at one severity. -/
def channelEvent (ch : ChannelId) (s : Severity) : NotificationEvent :=
  ⟨subjectFor s ch, some ch, s⟩

/-- The aggregate all-NORMAL OK notification event. -/
def okEvent : NotificationEvent :=
  ⟨SUBJECT_BATTERY_MONITOR_WORKING, none, Severity.NORMAL⟩

/-- Modelled from the spec: the per-channel DECIDE policy (§4.4, absent
from the supplied sources).  ALARM always notifies; WARN notifies only on
the edge, when the prior recorded severity is not WARN; a NORMAL channel
never notifies by itself (the OK message is decided in aggregate). -/
def decideChannel (s : Severity) (p : ChannelState) : Bool :=
  match s with
  | Severity.ALARM => true
  | Severity.WARN => p.lastSeverity != Severity.WARN
  | Severity.NORMAL => false

/-- Modelled from the spec: bounded WiFi acquisition (§4.5, absent from the
supplied sources).  At most `NUM_WIFI_ATTEMPTS` attempts are made; the
result is the index of the first successful attempt, `none` when the
budget is exhausted. -/
def wifiAcquire (avail : ℕ → Bool) : Option ℕ :=
  (List.range NUM_WIFI_ATTEMPTS).find? avail

/-- Milliseconds spent waiting after a given number of failed WiFi
attempts, `WIFI_RETRY_INTERVAL` apart. -/
def wifiElapsedMs (attemptCount : ℕ) : ℕ :=
  attemptCount * WIFI_RETRY_INTERVAL

/-- Persistent controller state across deep-sleep cycles: the last
severity of each channel and the aggregate OK-suppression counter.  The
spec stores `wakesSinceOkSent` inside each `ChannelState` but reads it as
the single aggregate OK counter; it is modelled once here. -/
structure CycleState where
  lastSevA : Severity
  lastSevB : Severity
  wakesSinceOkSent : ℕ
deriving DecidableEq, Repr

/-- View of the persisted state as channel A's `ChannelState`. -/
def chanStateA (st : CycleState) : ChannelState :=
  ⟨st.lastSevA, st.wakesSinceOkSent⟩

/-- View of the persisted state as channel B's `ChannelState`. -/
def chanStateB (st : CycleState) : ChannelState :=
  ⟨st.lastSevB, st.wakesSinceOkSent⟩

/-- Environment of one wake cycle: the raw sample lists acquired for each
channel (`none` is an `AcquisitionError`), WiFi availability per attempt
index, and whether the SMTP transport succeeds once WiFi is up. -/
structure CycleInput where
  rawA : Option (List ℚ)
  rawB : Option (List ℚ)
  wifiAvail : ℕ → Bool
  smtpOk : Bool

/-- Phases of the Cycle Controller state machine (spec §4.4). -/
inductive Phase
  | WAKE
  | SAMPLE
  | EVALUATE
  | DECIDE
  | NOTIFY
  | PERSIST
  | SLEEP
deriving DecidableEq, Repr

/-- Channel A's evaluation for the cycle. -/
def sevA (inp : CycleInput) : Option Severity :=
  evalChannel inp.rawA channelA

/-- Channel B's evaluation for the cycle; the channel is excluded entirely
when `BATTERY_B_MONITORED` is false (`ConfigError` in the spec taxonomy). -/
def sevB (inp : CycleInput) : Option Severity :=
  if BATTERY_B_MONITORED then evalChannel inp.rawB channelB else none

/-- Contribution of one channel to the all-NORMAL determination: a
monitored channel must have evaluated to NORMAL (an unknown channel
blocks the aggregate), an unmonitored channel never blocks it. -/
def aggregateOkChannel (s : Option Severity) (monitored : Bool) : Bool :=
  if monitored then s == some Severity.NORMAL else true

/-- Modelled from the spec: all monitored channels evaluated to NORMAL
this cycle (§4.4, absent from the supplied sources). -/
def allNormal (inp : CycleInput) : Bool :=
  aggregateOkChannel (sevA inp) true &&
  aggregateOkChannel (sevB inp) BATTERY_B_MONITORED

/-- Modelled from the spec: the OK notification is attempted when every
monitored channel is NORMAL and the suppression counter has reached
`IM_OK_INTERVAL` (§4.4, absent from the supplied sources). -/
def okAttempt (st : CycleState) (inp : CycleInput) : Bool :=
  allNormal inp && decide (IM_OK_INTERVAL ≤ st.wakesSinceOkSent)

/-- Notification attempts contributed by one channel this cycle: nothing
for an unknown channel, otherwise governed by `decideChannel`. -/
def channelAttempts (ch : ChannelId) (s : Option Severity) (p : ChannelState) :
    List NotificationEvent :=
  match s with
  | none => []
  | some sev => if decideChannel sev p then [channelEvent ch sev] else []

/-- Modelled from the spec: every notification attempt the DECIDE step
produces this cycle (§4.4, absent from the supplied sources). -/
def attempts (st : CycleState) (inp : CycleInput) : List NotificationEvent :=
  channelAttempts ChannelId.A (sevA inp) (chanStateA st) ++
  channelAttempts ChannelId.B (sevB inp) (chanStateB st) ++
  (if okAttempt st inp then [okEvent] else [])

/-- Modelled from the spec: a notification attempt actually goes out when
`SEND_MAIL` is enabled, WiFi was acquired within the retry budget, and
the SMTP transport succeeds (§4.5, absent from the supplied sources). -/
def sendSucceeds (inp : CycleInput) : Bool :=
  SEND_MAIL && (wifiAcquire inp.wifiAvail).isSome && inp.smtpOk

/-- Notifications actually sent this cycle; a failed transport drops every
pending attempt. -/
def sentEvents (st : CycleState) (inp : CycleInput) : List NotificationEvent :=
  if sendSucceeds inp then attempts st inp else []

/-- Whether the aggregate OK notification was actually sent this cycle. -/
def okSent (st : CycleState) (inp : CycleInput) : Bool :=
  okAttempt st inp && sendSucceeds inp

/-- Modelled from the spec: the PERSIST step (§4.4, absent from the
supplied sources).  Each evaluated channel records its fresh severity (an
unknown channel keeps its prior one); the OK counter resets to 0 exactly
when an OK notification was actually sent and increments otherwise.
Nothing else is persisted: a dropped notification is not queued. -/
def persist (st : CycleState) (inp : CycleInput) : CycleState :=
  ⟨(sevA inp).getD st.lastSevA,
   (sevB inp).getD st.lastSevB,
   if okSent st inp then 0 else st.wakesSinceOkSent + 1⟩

/-- Modelled from the spec: the phase trace of one wake cycle (§4.4,
absent from the supplied sources); NOTIFY is entered only when some
notification was decided, and every cycle ends in SLEEP. -/
def cycleTrace (st : CycleState) (inp : CycleInput) : List Phase :=
  [Phase.WAKE, Phase.SAMPLE, Phase.EVALUATE, Phase.DECIDE] ++
  (if attempts st inp = [] then [] else [Phase.NOTIFY]) ++
  [Phase.PERSIST, Phase.SLEEP]

/-- Outcome of one wake cycle: successor state, the notification attempts,
those actually sent, and the phase trace. -/
structure CycleOutcome where
  state : CycleState
  attempted : List NotificationEvent
  sent : List NotificationEvent
  trace : List Phase

/-- Modelled from the spec: one full wake cycle of the Cycle Controller
(§4.4, absent from the supplied sources). -/
def cycleStep (st : CycleState) (inp : CycleInput) : CycleOutcome :=
  ⟨persist st inp, attempts st inp, sentEvents st inp, cycleTrace st inp⟩

/-! Concrete sample data and cycle environments used to exercise the
model on closed inputs. -/

/-- Twenty-five identical raw readings high enough to classify NORMAL on
both channels (2300 / 189 and 2300 / 179 both exceed 11.5). -/
def readsNormal : List ℚ := List.replicate 25 2300

/-- Twenty-five zero raw readings, classifying ALARM on both channels. -/
def readsZero : List ℚ := List.replicate 25 0

/-- Twenty-five identical raw readings placing channel A in the WARN band
(2100 / 189 = 100/9, between 10.5 and 11.5). -/
def readsWarnA : List ℚ := List.replicate 25 2100

/-- Cycle environment where both channels sample NORMAL and the transport
is fully available. -/
def inpNormal : CycleInput := ⟨some readsNormal, some readsNormal, fun _ => true, true⟩

/-- Cycle environment where channel A samples ALARM and channel B NORMAL. -/
def inpAlarmA : CycleInput := ⟨some readsZero, some readsNormal, fun _ => true, true⟩

/-- Cycle environment where channel A samples in the WARN band. -/
def inpWarnA : CycleInput := ⟨some readsWarnA, some readsNormal, fun _ => true, true⟩

/-- Cycle environment where channel A's acquisition fails and channel B
samples NORMAL. -/
def inpAfail : CycleInput := ⟨none, some readsNormal, fun _ => true, true⟩

/-- Cycle environment where channel A samples ALARM and WiFi never comes
up on any attempt. -/
def inpNoWifi : CycleInput := ⟨some readsZero, some readsNormal, fun _ => false, true⟩

/-- Persisted state with both channels last seen NORMAL and the OK counter
at zero. -/
def st0 : CycleState := ⟨Severity.NORMAL, Severity.NORMAL, 0⟩

/-- Persisted state with both channels last seen NORMAL and the OK counter
at one. -/
def st1 : CycleState := ⟨Severity.NORMAL, Severity.NORMAL, 1⟩

lemma evalChannel_readsNormal_A :
    evalChannel (some readsNormal) channelA = some Severity.NORMAL := by
  norm_num [evalChannel, reduceMean, toVolts, checkedDiv, readsNormal, NUM_READINGS,
    channelA, ADC_A_MULTIPLIER, classify, BATTERY_A_WARN_LOW, BATTERY_A_ALARM_LOW,
    List.sum_replicate, nsmul_eq_mul]

lemma evalChannel_readsNormal_B :
    evalChannel (some readsNormal) channelB = some Severity.NORMAL := by
  norm_num [evalChannel, reduceMean, toVolts, checkedDiv, readsNormal, NUM_READINGS,
    channelB, ADC_B_MULTIPLIER, classify, BATTERY_B_WARN_LOW, BATTERY_B_ALARM_LOW,
    List.sum_replicate, nsmul_eq_mul]

lemma evalChannel_readsZero_A :
    evalChannel (some readsZero) channelA = some Severity.ALARM := by
  norm_num [evalChannel, reduceMean, toVolts, checkedDiv, readsZero, NUM_READINGS,
    channelA, ADC_A_MULTIPLIER, classify, BATTERY_A_WARN_LOW, BATTERY_A_ALARM_LOW,
    List.sum_replicate, nsmul_eq_mul]

lemma evalChannel_readsWarnA :
    evalChannel (some readsWarnA) channelA = some Severity.WARN := by
  norm_num [evalChannel, reduceMean, toVolts, checkedDiv, readsWarnA, NUM_READINGS,
    channelA, ADC_A_MULTIPLIER, classify, BATTERY_A_WARN_LOW, BATTERY_A_ALARM_LOW,
    List.sum_replicate, nsmul_eq_mul]

lemma sevA_inpNormal : sevA inpNormal = some Severity.NORMAL := by
  simpa [sevA, inpNormal] using evalChannel_readsNormal_A

lemma sevB_inpNormal : sevB inpNormal = some Severity.NORMAL := by
  simpa [sevB, inpNormal, BATTERY_B_MONITORED] using evalChannel_readsNormal_B

lemma allNormal_inpNormal : allNormal inpNormal = true := by
  simp [allNormal, aggregateOkChannel, sevA_inpNormal, sevB_inpNormal,
    BATTERY_B_MONITORED]

/-! Theorems settling the claims. -/

/-- C1: classify returns ALARM when the voltage is at or below
`alarmLowVolts`, WARN when it lies in the half-open band above
`alarmLowVolts` up to `warnLowVolts`, and NORMAL above `warnLowVolts`;
the shipped configuration sets warnLow to 11.5 and alarmLow to 10.5 volts
on both channels. -/
theorem C1_classify_bands (v : ℚ) (cfg : ChannelConfig)
    (hcfg : cfg.alarmLowVolts ≤ cfg.warnLowVolts) :
    (v ≤ cfg.alarmLowVolts → classify v cfg = Severity.ALARM) ∧
    (cfg.alarmLowVolts < v → v ≤ cfg.warnLowVolts → classify v cfg = Severity.WARN) ∧
    (cfg.warnLowVolts < v → classify v cfg = Severity.NORMAL) ∧
    channelA.warnLowVolts = 11.5 ∧ channelA.alarmLowVolts = 10.5 ∧
    channelB.warnLowVolts = 11.5 ∧ channelB.alarmLowVolts = 10.5 ∧
    channelA.alarmLowVolts ≤ channelA.warnLowVolts ∧
    channelB.alarmLowVolts ≤ channelB.warnLowVolts := by
  refine ⟨fun h => ?_, fun h1 h2 => ?_, fun h => ?_, rfl, rfl, rfl, rfl, ?_, ?_⟩
  · simp only [classify]
    split_ifs with h' <;> first | rfl | linarith
  · simp only [classify]
    split_ifs with h' h'' <;> first | rfl | linarith
  · simp only [classify]
    split_ifs with h' h'' <;> first | rfl | linarith
  · norm_num [channelA, BATTERY_A_ALARM_LOW, BATTERY_A_WARN_LOW]
  · norm_num [channelB, BATTERY_B_ALARM_LOW, BATTERY_B_WARN_LOW]

/-- Concrete check of C1 at voltages 10, 11 and 12 on channel A. -/
theorem C1_witness :
    classify 10 channelA = Severity.ALARM ∧
    classify 11 channelA = Severity.WARN ∧
    classify 12 channelA = Severity.NORMAL := by
  refine ⟨(C1_classify_bands 10 channelA ?_).1 ?_,
          (C1_classify_bands 11 channelA ?_).2.1 ?_ ?_,
          (C1_classify_bands 12 channelA ?_).2.2.1 ?_⟩ <;>
    norm_num [channelA, BATTERY_A_ALARM_LOW, BATTERY_A_WARN_LOW]

lemma okEvent_ne_channelEvent (ch : ChannelId) (s : Severity) :
    channelEvent ch s ≠ okEvent := by
  simp [channelEvent, okEvent]

lemma channel_of_mem (e : NotificationEvent) (ch : ChannelId)
    (s : Option Severity) (p : ChannelState) (h : e ∈ channelAttempts ch s p) :
    e.channel = some ch := by
  match s with
  | none => simp [channelAttempts] at h
  | some sev =>
    simp only [channelAttempts] at h
    by_cases hd : decideChannel sev p = true
    · simp [hd] at h
      subst h
      rfl
    · simp [hd] at h

lemma memA_attempts_iff (st : CycleState) (inp : CycleInput) (s : Severity)
    (h : sevA inp = some s) :
    (channelEvent ChannelId.A s ∈ attempts st inp
      ↔ decideChannel s (chanStateA st) = true) := by
  by_cases hd : decideChannel s (chanStateA st) = true
  · refine ⟨fun _ => hd, fun _ => ?_⟩
    apply List.mem_append.mpr
    left
    apply List.mem_append.mpr
    left
    simp [channelAttempts, h, hd]
  · refine ⟨fun hmem => ?_, fun hdd => absurd hdd hd⟩
    exfalso
    rcases List.mem_append.mp hmem with hmem' | hok
    · rcases List.mem_append.mp hmem' with hA | hB
      · rw [h] at hA
        simp [channelAttempts, hd] at hA
      · have := channel_of_mem _ _ _ _ hB
        simp [channelEvent] at this
    · by_cases hoa : okAttempt st inp = true
      · simp [hoa] at hok
        exact okEvent_ne_channelEvent ChannelId.A s hok
      · simp [hoa] at hok

lemma memB_attempts_iff (st : CycleState) (inp : CycleInput) (s : Severity)
    (h : sevB inp = some s) :
    (channelEvent ChannelId.B s ∈ attempts st inp
      ↔ decideChannel s (chanStateB st) = true) := by
  by_cases hd : decideChannel s (chanStateB st) = true
  · refine ⟨fun _ => hd, fun _ => ?_⟩
    apply List.mem_append.mpr
    left
    apply List.mem_append.mpr
    right
    simp [channelAttempts, h, hd]
  · refine ⟨fun hmem => ?_, fun hdd => absurd hdd hd⟩
    exfalso
    rcases List.mem_append.mp hmem with hmem' | hok
    · rcases List.mem_append.mp hmem' with hA | hB
      · have := channel_of_mem _ _ _ _ hA
        simp [channelEvent] at this
      · rw [h] at hB
        simp [channelAttempts, hd] at hB
    · by_cases hoa : okAttempt st inp = true
      · simp [hoa] at hok
        exact okEvent_ne_channelEvent ChannelId.B s hok
      · simp [hoa] at hok

/-- C2: an ALARM severity always produces a notification attempt with the
ALARM subject for that channel, on every cycle, whatever the prior
channel state holds; no suppression applies to ALARM. -/
theorem C2_alarm_always_notifies :
    (∀ p : ChannelState, decideChannel Severity.ALARM p = true) ∧
    (channelEvent ChannelId.A Severity.ALARM).subjectTemplate = SUBJECT_BATTERY_A_ALARM_LOW ∧
    (channelEvent ChannelId.B Severity.ALARM).subjectTemplate = SUBJECT_BATTERY_B_ALARM_LOW ∧
    (∀ (st : CycleState) (inp : CycleInput),
      sevA inp = some Severity.ALARM →
        channelEvent ChannelId.A Severity.ALARM ∈ (cycleStep st inp).attempted) ∧
    (∀ (st : CycleState) (inp : CycleInput),
      sevB inp = some Severity.ALARM →
        channelEvent ChannelId.B Severity.ALARM ∈ (cycleStep st inp).attempted) := by
  refine ⟨fun p => rfl, rfl, rfl, fun st inp h => ?_, fun st inp h => ?_⟩
  · exact (memA_attempts_iff st inp Severity.ALARM h).mpr rfl
  · exact (memB_attempts_iff st inp Severity.ALARM h).mpr rfl

/-- Concrete check of C2: with channel A sampling in the ALARM band, the
cycle's attempts contain the channel A ALARM notification even though the
prior state was NORMAL. -/
theorem C2_witness :
    decideChannel Severity.ALARM ⟨Severity.WARN, 0⟩ = true ∧
    channelEvent ChannelId.A Severity.ALARM ∈ (cycleStep st0 inpAlarmA).attempted :=
  ⟨C2_alarm_always_notifies.1 ⟨Severity.WARN, 0⟩,
   C2_alarm_always_notifies.2.2.2.1 st0 inpAlarmA
     (by simpa [sevA, inpAlarmA] using evalChannel_readsZero_A)⟩

/-- C3: in an all-NORMAL cycle the OK notification is attempted exactly
when the suppression counter has reached `IM_OK_INTERVAL` (1 in the
shipped configuration); below the interval nothing at all is attempted and
the counter increments. -/
theorem C3_ok_iff_counter (st : CycleState) (inp : CycleInput)
    (hall : allNormal inp = true) :
    (okEvent ∈ attempts st inp ↔ IM_OK_INTERVAL ≤ st.wakesSinceOkSent) ∧
    (st.wakesSinceOkSent < IM_OK_INTERVAL →
      attempts st inp = [] ∧
      (cycleStep st inp).state.wakesSinceOkSent = st.wakesSinceOkSent + 1) ∧
    IM_OK_INTERVAL = 1 := by
  have hAB : sevA inp = some Severity.NORMAL ∧ sevB inp = some Severity.NORMAL := by
    simpa [allNormal, aggregateOkChannel, BATTERY_B_MONITORED, Bool.and_eq_true] using hall
  have hatt : attempts st inp = if okAttempt st inp then [okEvent] else [] := by
    simp [attempts, channelAttempts, hAB.1, hAB.2, decideChannel]
  have hok : okAttempt st inp = decide (IM_OK_INTERVAL ≤ st.wakesSinceOkSent) := by
    simp [okAttempt, hall]
  refine ⟨?_, fun hlt => ?_, rfl⟩
  · rw [hatt, hok]
    by_cases h : IM_OK_INTERVAL ≤ st.wakesSinceOkSent <;> simp [h]
  · have hoa : okAttempt st inp = false := by
      rw [hok]
      simpa using Nat.not_le.mpr hlt
    have hsent : okSent st inp = false := by simp [okSent, hoa]
    exact ⟨by rw [hatt, hoa]; simp, by simp [cycleStep, persist, hsent]⟩

/-- Concrete check of C3: with both channels NORMAL and the counter at 0,
no notification is attempted and the counter moves to 1. -/
theorem C3_witness :
    (okEvent ∈ attempts st0 inpNormal ↔ IM_OK_INTERVAL ≤ st0.wakesSinceOkSent) ∧
    (st0.wakesSinceOkSent < IM_OK_INTERVAL →
      attempts st0 inpNormal = [] ∧
      (cycleStep st0 inpNormal).state.wakesSinceOkSent = st0.wakesSinceOkSent + 1) ∧
    IM_OK_INTERVAL = 1 :=
  C3_ok_iff_counter st0 inpNormal allNormal_inpNormal

/-- C4: the PERSIST step records each evaluated channel's fresh severity
independently of the send outcome, and the OK counter is reset to 0
exactly when an OK notification was actually sent, incrementing by 1 in
every other cycle. -/
theorem C4_persist_once (st : CycleState) (inp : CycleInput) :
    (∀ a, sevA inp = some a → (cycleStep st inp).state.lastSevA = a) ∧
    (∀ b, sevB inp = some b → (cycleStep st inp).state.lastSevB = b) ∧
    (cycleStep st inp).state.wakesSinceOkSent
      = (if okSent st inp then 0 else st.wakesSinceOkSent + 1) ∧
    ((cycleStep st inp).state.wakesSinceOkSent = 0 ↔ okSent st inp = true) := by
  refine ⟨fun a ha => ?_, fun b hb => ?_, rfl, ?_⟩
  · simp [cycleStep, persist, ha]
  · simp [cycleStep, persist, hb]
  · by_cases h : okSent st inp = true <;> simp [cycleStep, persist, h]

/-- Concrete check of C4: an all-NORMAL cycle with full transport records
NORMAL on both channels. -/
theorem C4_witness :
    (cycleStep st0 inpNormal).state.lastSevA = Severity.NORMAL ∧
    (cycleStep st0 inpNormal).state.lastSevB = Severity.NORMAL :=
  ⟨(C4_persist_once st0 inpNormal).1 Severity.NORMAL sevA_inpNormal,
   (C4_persist_once st0 inpNormal).2.1 Severity.NORMAL sevB_inpNormal⟩

/-- C5: a WARN severity is edge-triggered: the channel's notification is
attempted exactly when the prior recorded severity is not WARN, so a WARN
reading following a recorded WARN produces no re-notification. -/
theorem C5_warn_edge_triggered :
    (∀ p : ChannelState, decideChannel Severity.WARN p = true ↔ p.lastSeverity ≠ Severity.WARN) ∧
    (∀ (st : CycleState) (inp : CycleInput),
      sevA inp = some Severity.WARN →
        (channelEvent ChannelId.A Severity.WARN ∈ attempts st inp
          ↔ st.lastSevA ≠ Severity.WARN)) ∧
    (∀ (st : CycleState) (inp : CycleInput),
      sevB inp = some Severity.WARN →
        (channelEvent ChannelId.B Severity.WARN ∈ attempts st inp
          ↔ st.lastSevB ≠ Severity.WARN)) := by
  refine ⟨fun p => ?_, fun st inp h => ?_, fun st inp h => ?_⟩
  · simp [decideChannel]
  · rw [memA_attempts_iff st inp Severity.WARN h]
    simp [decideChannel, chanStateA]
  · rw [memB_attempts_iff st inp Severity.WARN h]
    simp [decideChannel, chanStateB]

/-- Concrete check of C5: a WARN reading with prior state NORMAL notifies;
the membership equivalence holds at the concrete WARN input. -/
theorem C5_witness :
    (decideChannel Severity.WARN ⟨Severity.NORMAL, 0⟩ = true) ∧
    (channelEvent ChannelId.A Severity.WARN ∈ attempts st0 inpWarnA
      ↔ st0.lastSevA ≠ Severity.WARN) :=
  ⟨(C5_warn_edge_triggered.1 ⟨Severity.NORMAL, 0⟩).mpr (by decide),
   C5_warn_edge_triggered.2.1 st0 inpWarnA
     (by simpa [sevA, inpWarnA] using evalChannel_readsWarnA)⟩

/-- C6: a failed acquisition leaves the channel unknown rather than
NORMAL, and an unknown channel blocks the aggregate OK: when channel A's
sampling fails and channel B is NORMAL, no OK notification is attempted or
sent. -/
theorem C6_unknown_blocks_ok :
    (∀ cfg : ChannelConfig, evalChannel none cfg = none) ∧
    (∀ inp : CycleInput, inp.rawA = none → sevA inp = none) ∧
    (∀ (st : CycleState) (inp : CycleInput),
      sevA inp = none → sevB inp = some Severity.NORMAL →
        okAttempt st inp = false ∧
        okEvent ∉ attempts st inp ∧
        okEvent ∉ sentEvents st inp) := by
  refine ⟨fun cfg => rfl, fun inp h => by simp [sevA, h, evalChannel],
    fun st inp hA _hB => ?_⟩
  have hall : allNormal inp = false := by
    simp [allNormal, aggregateOkChannel, hA, BATTERY_B_MONITORED]
  have hoa : okAttempt st inp = false := by simp [okAttempt, hall]
  have hnot : okEvent ∉ attempts st inp := by
    intro hmem
    rcases List.mem_append.mp hmem with hmem' | hokl
    · rcases List.mem_append.mp hmem' with hA' | hB'
      · have := channel_of_mem _ _ _ _ hA'
        simp [okEvent] at this
      · have := channel_of_mem _ _ _ _ hB'
        simp [okEvent] at this
    · rw [hoa] at hokl
      simp at hokl
  refine ⟨hoa, hnot, ?_⟩
  intro hmem
  simp only [sentEvents] at hmem
  by_cases hs : sendSucceeds inp = true
  · rw [hs] at hmem
    exact hnot (by simpa using hmem)
  · simp [hs] at hmem

/-- Concrete check of C6: channel A's acquisition fails while channel B is
NORMAL, and no OK notification is attempted or sent. -/
theorem C6_witness :
    okAttempt st0 inpAfail = false ∧
    okEvent ∉ attempts st0 inpAfail ∧
    okEvent ∉ sentEvents st0 inpAfail :=
  C6_unknown_blocks_ok.2.2 st0 inpAfail rfl
    (by simpa [sevB, inpAfail, BATTERY_B_MONITORED] using evalChannel_readsNormal_B)

/-- C7: WiFi acquisition is bounded by `NUM_WIFI_ATTEMPTS` (25) attempts
`WIFI_RETRY_INTERVAL` (100) milliseconds apart; when it fails nothing is
sent, the successor state carries only the fresh severities and the
incremented counter (the dropped notification is not queued), and every
cycle passes PERSIST and ends in SLEEP. -/
theorem C7_wifi_bounded_and_nonfatal :
    NUM_WIFI_ATTEMPTS = 25 ∧ WIFI_RETRY_INTERVAL = 100 ∧
    (∀ avail : ℕ → Bool, (∀ k, k < NUM_WIFI_ATTEMPTS → avail k = false) →
      wifiAcquire avail = none) ∧
    (∀ (st : CycleState) (inp : CycleInput), wifiAcquire inp.wifiAvail = none →
      sentEvents st inp = [] ∧
      (cycleStep st inp).state =
        ⟨(sevA inp).getD st.lastSevA, (sevB inp).getD st.lastSevB,
          st.wakesSinceOkSent + 1⟩) ∧
    (∀ (st : CycleState) (inp : CycleInput),
      Phase.PERSIST ∈ cycleTrace st inp ∧
      (cycleTrace st inp).getLast? = some Phase.SLEEP) := by
  refine ⟨rfl, rfl, fun avail h => ?_, fun st inp hw => ?_, fun st inp => ⟨?_, ?_⟩⟩
  · rw [wifiAcquire, List.find?_eq_none]
    intro x hx
    simp [h x (by simpa [NUM_WIFI_ATTEMPTS] using List.mem_range.mp hx)]
  · have hsend : sendSucceeds inp = false := by simp [sendSucceeds, hw]
    have hoksent : okSent st inp = false := by simp [okSent, hsend]
    exact ⟨by simp [sentEvents, hsend], by simp [cycleStep, persist, hoksent]⟩
  · by_cases h : attempts st inp = [] <;> simp [cycleTrace, h]
  · by_cases h : attempts st inp = [] <;> simp [cycleTrace, h] <;> rfl

/-- Concrete check of C7: with WiFi down on every attempt, acquisition is
abandoned, nothing is sent, and the cycle trace still ends in SLEEP. -/
theorem C7_witness :
    wifiAcquire inpNoWifi.wifiAvail = none ∧
    sentEvents st0 inpNoWifi = [] ∧
    (cycleTrace st0 inpNoWifi).getLast? = some Phase.SLEEP := by
  have hw : wifiAcquire inpNoWifi.wifiAvail = none :=
    C7_wifi_bounded_and_nonfatal.2.2.1 inpNoWifi.wifiAvail (fun k _ => rfl)
  exact ⟨hw, (C7_wifi_bounded_and_nonfatal.2.2.2.1 st0 inpNoWifi hw).1,
         (C7_wifi_bounded_and_nonfatal.2.2.2.2 st0 inpNoWifi).2⟩

/-- C8: every notification subject the Notifier builds, and every
configured `SUBJECT_*` template, is strictly shorter than half of
`BUF_SIZE`, i.e. under 64 characters for the shipped `BUF_SIZE` of 128. -/
theorem C8_subject_lengths :
    (∀ (s : Severity) (ch : ChannelId), (subjectFor s ch).length < BUF_SIZE / 2) ∧
    SUBJECT_BATTERY_MONITOR_WORKING.length < BUF_SIZE / 2 ∧
    SUBJECT_BATTERY_A_ALARM_LOW.length < BUF_SIZE / 2 ∧
    SUBJECT_BATTERY_B_ALARM_LOW.length < BUF_SIZE / 2 ∧
    SUBJECT_BATTERY_A_WARN_LOW.length < BUF_SIZE / 2 ∧
    SUBJECT_BATTERY_B_WARN_LOW.length < BUF_SIZE / 2 := by
  refine ⟨fun s ch => ?_, by decide, by decide, by decide, by decide, by decide⟩
  cases s <;> cases ch <;> decide

/-- Concrete check of C8 at the channel A ALARM subject. -/
theorem C8_witness : (subjectFor Severity.ALARM ChannelId.A).length < BUF_SIZE / 2 :=
  C8_subject_lengths.1 Severity.ALARM ChannelId.A

/-- C9: on both shipped channels the alarm threshold (10.5) is strictly
below the warn threshold (11.5), so the WARN band is non-empty and for
every voltage exactly one of the three severity cases of classify
applies. -/
theorem C9_alarm_below_warn :
    channelA.alarmLowVolts < channelA.warnLowVolts ∧
    channelB.alarmLowVolts < channelB.warnLowVolts ∧
    channelA.alarmLowVolts = 10.5 ∧ channelA.warnLowVolts = 11.5 ∧
    channelB.alarmLowVolts = 10.5 ∧ channelB.warnLowVolts = 11.5 ∧
    (∀ v : ℚ, ∀ cfg : ChannelConfig, cfg.alarmLowVolts < cfg.warnLowVolts →
      (classify v cfg = Severity.ALARM ↔ v ≤ cfg.alarmLowVolts) ∧
      (classify v cfg = Severity.WARN ↔ cfg.alarmLowVolts < v ∧ v ≤ cfg.warnLowVolts) ∧
      (classify v cfg = Severity.NORMAL ↔ cfg.warnLowVolts < v)) := by
  refine ⟨?_, ?_, rfl, rfl, rfl, rfl, fun v cfg hcfg => ?_⟩
  · norm_num [channelA, BATTERY_A_ALARM_LOW, BATTERY_A_WARN_LOW]
  · norm_num [channelB, BATTERY_B_ALARM_LOW, BATTERY_B_WARN_LOW]
  · simp only [classify]
    split_ifs with h1 h2 <;>
      refine ⟨⟨fun hh => ?_, fun hh => ?_⟩, ⟨fun hh => ?_, fun hh => ?_⟩,
              ⟨fun hh => ?_, fun hh => ?_⟩⟩ <;>
        first
          | rfl
          | linarith
          | (exact absurd hh (by decide))
          | (exact ⟨by linarith, by linarith⟩)
          | (exfalso; linarith)
          | (exfalso; linarith [hh.1, hh.2])

/-- Concrete check of C9's trichotomy at 11 volts on channel A. -/
theorem C9_witness :
    (classify 11 channelA = Severity.ALARM ↔ (11 : ℚ) ≤ channelA.alarmLowVolts) ∧
    (classify 11 channelA = Severity.WARN
      ↔ channelA.alarmLowVolts < 11 ∧ (11 : ℚ) ≤ channelA.warnLowVolts) ∧
    (classify 11 channelA = Severity.NORMAL ↔ channelA.warnLowVolts < 11) :=
  C9_alarm_below_warn.2.2.2.2.2.2 11 channelA
    (by norm_num [channelA, BATTERY_A_ALARM_LOW, BATTERY_A_WARN_LOW])

/-- C10: the Sampler's mean divides by the non-zero constant
`NUM_READINGS` (25) and the Converter divides by the non-zero channel
multipliers (189 and 179), so neither division can divide by zero on any
input. -/
theorem C10_division_guards :
    NUM_READINGS = 25 ∧ (NUM_READINGS : ℚ) ≠ 0 ∧
    channelA.multiplier = 189 ∧ channelB.multiplier = 179 ∧
    channelA.multiplier ≠ 0 ∧ channelB.multiplier ≠ 0 ∧
    (∀ s : List ℚ, (reduceMean s).isSome = true) ∧
    (∀ r : ℚ, (toVolts r channelA.multiplier).isSome = true ∧
      (toVolts r channelB.multiplier).isSome = true) := by
  refine ⟨rfl, by norm_num [NUM_READINGS], rfl, rfl,
    by norm_num [channelA, ADC_A_MULTIPLIER],
    by norm_num [channelB, ADC_B_MULTIPLIER],
    fun s => ?_, fun r => ⟨?_, ?_⟩⟩
  · norm_num [reduceMean, checkedDiv, NUM_READINGS]
  · norm_num [toVolts, checkedDiv, channelA, ADC_A_MULTIPLIER]
  · norm_num [toVolts, checkedDiv, channelB, ADC_B_MULTIPLIER]

/-- Concrete check of C10 on the zero sample list and a unit raw mean. -/
theorem C10_witness :
    (reduceMean readsZero).isSome = true ∧
    (toVolts 1 channelA.multiplier).isSome = true :=
  ⟨C10_division_guards.2.2.2.2.2.2.1 readsZero,
   (C10_division_guards.2.2.2.2.2.2.2 1).1⟩

end BatteryMonitor
